import Mathlib

/-!
Verification of the GitHub Activity CLI (src/github_activity.py) against its
natural-language specification.

The script is a single pipeline: fetch a JSON array of event records from the
GitHub events endpoint, format each recognized event through a fixed
per-type template table, and print at most `max_events` formatted lines.

The shallow embedding below translates the Python source into Lean:
dynamically-typed JSON data becomes the inductive `Value`; Python exceptions
relevant to this code (`KeyError`, `TypeError`, `AttributeError`) become the
inductive `PyErr` threaded through `Except`; printing becomes lists of the
strings passed to `print`; `sys.exit` and uncaught exceptions become the
`ProcessEnd` summary of how the process terminates.
-/

set_option autoImplicit false

namespace GithubActivity

/-- A JSON-shaped Python value, as produced by `json.loads`: the dynamic data
model that `format_event` consumes.  Object keys are strings (JSON guarantees
this); duplicate keys are assumed absent, as in any response of the API. -/
inductive Value where
  | null
  | bool (b : Bool)
  | int (n : Int)
  | str (s : String)
  | list (xs : List Value)
  | obj (fields : List (String × Value))

/-- The Python exceptions that the formatting pipeline can raise: `KeyError`
from a missing dict key or missing format argument, `TypeError` from
subscripting a non-dict with a string key or from an unhashable dict-membership
probe or from iterating a non-iterable, `AttributeError` from calling a method
(`.get`, `.replace`) on a value that lacks it. -/
inductive PyErr where
  | keyError
  | typeError
  | attributeError
  deriving DecidableEq

/-- Association-list lookup with string keys: models both Python dict lookup
`d[k]` / `d.get(k)` shape and lookup in the static template table. -/
def lookupAssoc {α : Type} : List (String × α) → String → Option α
  | [], _ => none
  | (k, v) :: rest, key => if k = key then some v else lookupAssoc rest key

/-- Python truthiness (`if x:`) restricted to JSON-shaped values: `None`,
`False`, `0`, `""`, `[]` and the empty dict are falsy, everything else truthy. -/
def pyTruthy : Value → Bool
  | .null => false
  | .bool b => b
  | .int n => if n = 0 then false else true
  | .str s => if s = "" then false else true
  | .list xs => match xs with | [] => false | _ => true
  | .obj fs => match fs with | [] => false | _ => true

/-- Python `repr` of a string: single quotes unless the string contains a
single quote and no double quote.  Escaping of embedded quote characters does
not arise for the values any claim touches and is not modelled. -/
def pyReprStr (s : String) : String :=
  if s.contains '\x27' && !(s.contains '"') then "\"" ++ s ++ "\""
  else "\x27" ++ s ++ "\x27"

mutual

/-- Python `repr` on JSON-shaped values, needed because `str` of a list or
dict calls `repr` on the elements. -/
def pyRepr : Value → String
  | .null => "None"
  | .bool b => if b then "True" else "False"
  | .int n => toString n
  | .str s => pyReprStr s
  | .list xs => "[" ++ pyReprList xs ++ "]"
  | .obj fs => "\x7b" ++ pyReprObj fs ++ "\x7d"

/-- Comma-separated `repr` of the elements of a Python list. -/
def pyReprList : List Value → String
  | [] => ""
  | [v] => pyRepr v
  | v :: w :: rest => pyRepr v ++ ", " ++ pyReprList (w :: rest)

/-- Comma-separated `key: value` rendering of the entries of a Python dict. -/
def pyReprObj : List (String × Value) → String
  | [] => ""
  | [(k, v)] => pyReprStr k ++ ": " ++ pyRepr v
  | (k, v) :: e :: rest => pyReprStr k ++ ": " ++ pyRepr v ++ ", " ++ pyReprObj (e :: rest)

end

/-- Python `str()` as applied by `str.format` substitution and by f-strings:
a string renders as itself, every other value through `repr`-style rendering. -/
def pyStr : Value → String
  | .str s => s
  | v => pyRepr v

/-- Python subscription `v[key]` with a string key, as performed by
`str.format` on a field path such as `payload[commits]`: a dict either yields
the value or raises `KeyError`; every non-dict raises `TypeError` (string keys
are not indices for lists or strings, and ints and `None` are not
subscriptable). -/
def pySubscript : Value → String → Except PyErr Value
  | .obj fs, key =>
    match lookupAssoc fs key with
    | some v => .ok v
    | none => .error .keyError
  | _, _ => .error .typeError

/-- One piece of a format template: a literal chunk, or a field reference
`{root[k1][k2]...}` naming a keyword argument plus a chain of subscripts. -/
inductive TmplPart where
  | lit (s : String)
  | field (root : String) (path : List String)

/-- The `EVENT_MESSAGES` table of `GitHubActivityFetcher`, translated from the
Python format strings into structured templates.  The source strings are, in
order:
`"Pushed {payload[commits]} commits to {repo[name]}"`,
`"{payload[action]} an issue in {repo[name]}"`,
`"Commented on an issue in {repo[name]}"`,
`"Starred {repo[name]}"`,
`"Forked {repo[name]}"`,
`"Created {payload[ref_type]} in {repo[name]}"`,
`"Deleted {payload[ref_type]} in {repo[name]}"`,
`"{payload[action]} a pull request in {repo[name]}"`,
`"Released {payload[release][tag_name]} in {repo[name]}"`,
`"Made {repo[name]} public"`,
`"{payload[action]} a collaborator to {repo[name]}"`. -/
def EVENT_MESSAGES : List (String × List TmplPart) :=
  [ ("PushEvent",
      [.lit "Pushed ", .field "payload" ["commits"], .lit " commits to ", .field "repo" ["name"]]),
    ("IssuesEvent",
      [.field "payload" ["action"], .lit " an issue in ", .field "repo" ["name"]]),
    ("IssueCommentEvent",
      [.lit "Commented on an issue in ", .field "repo" ["name"]]),
    ("WatchEvent",
      [.lit "Starred ", .field "repo" ["name"]]),
    ("ForkEvent",
      [.lit "Forked ", .field "repo" ["name"]]),
    ("CreateEvent",
      [.lit "Created ", .field "payload" ["ref_type"], .lit " in ", .field "repo" ["name"]]),
    ("DeleteEvent",
      [.lit "Deleted ", .field "payload" ["ref_type"], .lit " in ", .field "repo" ["name"]]),
    ("PullRequestEvent",
      [.field "payload" ["action"], .lit " a pull request in ", .field "repo" ["name"]]),
    ("ReleaseEvent",
      [.lit "Released ", .field "payload" ["release", "tag_name"], .lit " in ", .field "repo" ["name"]]),
    ("PublicEvent",
      [.lit "Made ", .field "repo" ["name"], .lit " public"]),
    ("MemberEvent",
      [.field "payload" ["action"], .lit " a collaborator to ", .field "repo" ["name"]]) ]

/-- Resolve one field reference of a template against the keyword arguments of
`message_template.format(**event)`: a missing keyword raises `KeyError`, and
every further subscript follows `pySubscript`. -/
def getPath (fields : List (String × Value)) (root : String) (path : List String) : Except PyErr Value :=
  match lookupAssoc fields root with
  | none => .error .keyError
  | some v => path.foldlM pySubscript v

/-- Render a single template part against the event record. -/
def renderPart (fields : List (String × Value)) : TmplPart → Except PyErr String
  | .lit s => .ok s
  | .field root path => (getPath fields root path).map pyStr

/-- `message_template.format(**event)`: substitute every referenced field into
the template, left to right, propagating the first exception raised. -/
def substTmpl (fields : List (String × Value)) : List TmplPart → Except PyErr String
  | [] => .ok ""
  | [p] => renderPart fields p
  | p :: q :: rest =>
    match renderPart fields p with
    | .error e => .error e
    | .ok a =>
      match substTmpl fields (q :: rest) with
      | .error e => .error e
      | .ok b => .ok (a ++ b)

/-- The result of a successful parse by `datetime.fromisoformat`: a naive or
offset-aware datetime.  The offset, when present, is kept in seconds; the
`strftime` format used by the script ignores it. -/
structure PyDateTime where
  year : Nat
  month : Nat
  day : Nat
  hour : Nat
  minute : Nat
  second : Nat
  microsecond : Nat
  tzOffsetSeconds : Option Int
  deriving DecidableEq

/-- Numeric value of a decimal digit character. -/
def digitVal (c : Char) : Nat := c.toNat - '0'.toNat

/-- Read exactly `n` decimal digits from the front of the character list,
accumulating their value; fails if a non-digit appears first. -/
def takeDigits : Nat → Nat → List Char → Option (Nat × List Char)
  | 0, acc, cs => some (acc, cs)
  | n + 1, acc, c :: cs => if c.isDigit then takeDigits n (acc * 10 + digitVal c) cs else none
  | _ + 1, _, [] => none

/-- Gregorian leap-year rule, as used by `datetime`. -/
def isLeapYear (y : Nat) : Bool := y % 4 = 0 && (y % 100 ≠ 0 || y % 400 = 0)

/-- Number of days in a month, as enforced by the `datetime` constructor. -/
def daysInMonth (y m : Nat) : Nat :=
  if m = 2 then (if isLeapYear y then 29 else 28)
  else if m = 4 ∨ m = 6 ∨ m = 9 ∨ m = 11 then 30
  else 31

/-- Split the time portion at the first `+` or `-`, which separates the clock
time from the UTC-offset suffix. -/
def splitAtSign : List Char → List Char × Option (Char × List Char)
  | [] => ([], none)
  | c :: rest =>
    if c = '+' ∨ c = '-' then ([], some (c, rest))
    else
      let (a, b) := splitAtSign rest
      (c :: a, b)

/-- Parse a complete `HH[:MM[:SS[.fff|.ffffff]]]` clock string, the grammar of
CPython `_parse_hh_mm_ss_ff`; returns hours, minutes, seconds and
microseconds.  The fractional part must be exactly 3 or 6 digits and must end
the string. -/
def parseHMS (cs : List Char) : Option (Nat × Nat × Nat × Nat) :=
  match takeDigits 2 0 cs with
  | none => none
  | some (h, r1) =>
    match r1 with
    | [] => some (h, 0, 0, 0)
    | ':' :: r2 =>
      match takeDigits 2 0 r2 with
      | none => none
      | some (m, r3) =>
        match r3 with
        | [] => some (h, m, 0, 0)
        | ':' :: r4 =>
          match takeDigits 2 0 r4 with
          | none => none
          | some (s, r5) =>
            match r5 with
            | [] => some (h, m, s, 0)
            | '.' :: r6 =>
              if r6.length = 3 ∧ r6.all Char.isDigit then
                (takeDigits 3 0 r6).map (fun p => (h, m, s, p.1 * 1000))
              else if r6.length = 6 ∧ r6.all Char.isDigit then
                (takeDigits 6 0 r6).map (fun p => (h, m, s, p.1))
              else none
            | _ => none
        | _ => none
    | _ => none

/-- Parse the UTC-offset suffix after its sign.  CPython accepts exactly the
lengths of `HH:MM`, `HH:MM:SS` and `HH:MM:SS.ffffff`, and the resulting
offset must be strictly less than 24 hours in magnitude (the `timezone`
constructor bound). -/
def parseTZ (sign : Char) (cs : List Char) : Option Int :=
  if cs.length = 5 ∨ cs.length = 8 ∨ cs.length = 15 then
    match parseHMS cs with
    | none => none
    | some (oh, om, os, _) =>
      let total : Nat := oh * 3600 + om * 60 + os
      if total < 86400 then some (if sign = '-' then -(total : Int) else (total : Int))
      else none
  else none

/-- Model of `datetime.fromisoformat` (the documented inverse of
`datetime.isoformat`): a `YYYY-MM-DD` date with year at least 1 and a valid
calendar day, optionally followed by one separator character of any kind and
a clock time `HH[:MM[:SS[.fff|.ffffff]]]`, optionally followed by a UTC
offset `±HH:MM[:SS[.ffffff]]`.  Returns `none` exactly where CPython raises
`ValueError`. -/
def fromisoformat (s : String) : Option PyDateTime :=
  match takeDigits 4 0 s.data with
  | none => none
  | some (y, r1) =>
    match r1 with
    | '-' :: r2 =>
      match takeDigits 2 0 r2 with
      | none => none
      | some (mo, r3) =>
        match r3 with
        | '-' :: r4 =>
          match takeDigits 2 0 r4 with
          | none => none
          | some (d, r5) =>
            if 1 ≤ y ∧ 1 ≤ mo ∧ mo ≤ 12 ∧ 1 ≤ d ∧ d ≤ daysInMonth y mo then
              match r5 with
              | [] => some ⟨y, mo, d, 0, 0, 0, 0, none⟩
              | _ :: tcs =>
                match tcs with
                | [] => none
                | _ =>
                  match splitAtSign tcs with
                  | (timecs, tzpart) =>
                    match parseHMS timecs with
                    | none => none
                    | some (h, mi, sec, us) =>
                      if h ≤ 23 ∧ mi ≤ 59 ∧ sec ≤ 59 then
                        match tzpart with
                        | none => some ⟨y, mo, d, h, mi, sec, us, none⟩
                        | some (sgn, tzcs) =>
                          match parseTZ sgn tzcs with
                          | none => none
                          | some off => some ⟨y, mo, d, h, mi, sec, us, some off⟩
                      else none
            else none
        | _ => none
    | _ => none

/-- Left-pad the decimal representation of `n` with zeros to width `w`, the
rendering of the zero-padded `strftime` directives. -/
def padZeros (w n : Nat) : String :=
  String.mk (List.replicate (w - (Nat.repr n).length) '0') ++ Nat.repr n

/-- `dt.strftime("%Y-%m-%d %H:%M")`: zero-padded year, month, day, hour and
minute, 24-hour clock, no seconds and no timezone suffix. -/
def strftime_Y_m_d_H_M (dt : PyDateTime) : String :=
  padZeros 4 dt.year ++ "-" ++ padZeros 2 dt.month ++ "-" ++ padZeros 2 dt.day
    ++ " " ++ padZeros 2 dt.hour ++ ":" ++ padZeros 2 dt.minute

/-- `timestamp_str.replace("Z", "+00:00")`: since the pattern is a single
character, `str.replace` is exactly this character-wise substitution of every
occurrence of `Z`. -/
def replaceZ (s : String) : String :=
  String.join (s.data.map (fun c => if c = 'Z' then "+00:00" else String.mk [c]))

/-- `GitHubActivityFetcher._format_timestamp`: replace `Z` with `+00:00`, try
`datetime.fromisoformat`, and on success render through
`strftime("%Y-%m-%d %H:%M")`; the `except ValueError` branch returns the
original string unchanged. -/
def _format_timestamp (timestamp_str : String) : String :=
  match fromisoformat (replaceZ timestamp_str) with
  | some dt => strftime_Y_m_d_H_M dt
  | none => timestamp_str

/-- The generic fallback of the `except KeyError` handler of `format_event`:
`f"{event_type} in {event.get(\x27repo\x27, ...).get(\x27name\x27, \x27unknown\x27)}"`.
`.get("repo", dict())` yields the empty dict when `repo` is absent, and
`.get` on a present non-dict `repo` raises `AttributeError`. -/
def formatFallback (fields : List (String × Value)) (event_type : String) : Except PyErr (Option String) :=
  match lookupAssoc fields "repo" with
  | none => .ok (some (event_type ++ " in unknown"))
  | some (.obj rf) =>
    .ok (some (event_type ++ " in "
      ++ (match lookupAssoc rf "name" with
          | some v => pyStr v
          | none => "unknown")))
  | some _ => .error .attributeError

/-- The body of the `try` block of `format_event` for a known event type, and
its `except KeyError` handler: substitute the template, prepend the formatted
timestamp when `event.get("created_at")` is truthy (`.replace` on a
non-string `created_at` raises `AttributeError`), and fall back to
`formatFallback` when the substitution raised `KeyError`; any other exception
propagates. -/
def formatKnown (fields : List (String × Value)) (event_type : String)
    (message_template : List TmplPart) : Except PyErr (Option String) :=
  match substTmpl fields message_template with
  | .error .keyError => formatFallback fields event_type
  | .error e => .error e
  | .ok message =>
    match lookupAssoc fields "created_at" with
    | none => .ok (some message)
    | some created_at =>
      if pyTruthy created_at then
        match created_at with
        | .str c => .ok (some (_format_timestamp c ++ " - " ++ message))
        | _ => .error .attributeError
      else .ok (some message)

/-- `GitHubActivityFetcher.format_event`: look up `event.get("type")` in
`EVENT_MESSAGES`; if absent return `None`; if present format through
`formatKnown` (the `try` block and its `except KeyError` handler).
Exceptions propagate as `.error`: a `TypeError` from an unhashable `type`
value used in the `in EVENT_MESSAGES` membership test, or anything raised
inside `formatKnown` other than the caught `KeyError`; `.get` on a non-dict
event raises `AttributeError`. -/
def format_event (event : Value) : Except PyErr (Option String) :=
  match event with
  | .obj fields =>
    match lookupAssoc fields "type" with
    | some (.obj _) => .error .typeError
    | some (.list _) => .error .typeError
    | some (.str event_type) =>
      match lookupAssoc EVENT_MESSAGES event_type with
      | none => .ok none
      | some message_template => formatKnown fields event_type message_template
    | some _ => .ok none
    | none => .ok none
  | _ => .error .attributeError

/-- How the process run ends: returning normally (the interpreter then exits
with status 0), an explicit `sys.exit(code)`, or an uncaught Python exception
(traceback, interpreter exit status 1). -/
inductive ProcessEnd where
  | normal
  | exited (code : Nat)
  | raised (e : PyErr)
  deriving DecidableEq

/-- Everything observable about one run: the strings passed to `print` on
standard output, the strings printed to standard error, and how the process
ended. -/
structure Console where
  stdout : List String
  stderr : List String
  endState : ProcessEnd
  deriving DecidableEq

/-- Numeric exit status of the process corresponding to a `ProcessEnd`. -/
def exitCode (c : Console) : Nat :=
  match c.endState with
  | .normal => 0
  | .exited code => code
  | .raised _ => 1

/-- The outcome of the one HTTP GET issued by `fetch_activity`, as seen at the
`try` block: a 2xx response whose body decoded to a JSON value, an
`urllib.error.HTTPError` with its status code and reason phrase (raised for
every non-2xx final status), an `urllib.error.URLError` transport failure, a
`json.JSONDecodeError` on a 2xx body, or any other unexpected exception. -/
inductive HttpOutcome where
  | success (body : Value)
  | httpError (code : Nat) (reason : String)
  | urlError (reason : String)
  | jsonError (desc : String)
  | otherError (desc : String)

/-- The result of `fetch_activity` as its caller observes it: either the
decoded event sequence, or the process is terminating because
`_print_error` wrote a message to standard error and called `sys.exit(1)`. -/
inductive FetchResult where
  | ok (events : Value)
  | failed (stderrLine : String)

/-- `GitHubActivityFetcher._print_error`: the line written to standard error
(the caller then models the accompanying `sys.exit(1)`). -/
def _print_error (message : String) : String := "❌ Error: " ++ message

/-- `GitHubActivityFetcher.fetch_activity`: on success return the decoded
JSON body; each `except` clause classifies the failure into a message passed
to `_print_error`, which exits the process with status 1. -/
def fetch_activity (username : String) (o : HttpOutcome) : FetchResult :=
  match o with
  | .success v => .ok v
  | .httpError code reason =>
    if code = 404 then
      .failed (_print_error ("User \x27" ++ username ++ "\x27 not found"))
    else if code = 403 then
      .failed (_print_error "API rate limit exceeded. Please try again later.")
    else
      .failed (_print_error ("GitHub API error: " ++ toString code ++ " - " ++ reason))
  | .urlError reason => .failed (_print_error ("Network error: " ++ reason))
  | .jsonError desc => .failed (_print_error ("Invalid response from GitHub API: " ++ desc))
  | .otherError desc => .failed (_print_error ("Unexpected error: " ++ desc))

/-- Python iteration `for event in events:` over a JSON-shaped value: lists
yield their elements, strings their characters, dicts their keys; `None`,
booleans and numbers raise `TypeError`. -/
def pyIter : Value → Except PyErr (List Value)
  | .list xs => .ok xs
  | .str s => .ok (s.data.map (fun c => .str (String.mk [c])))
  | .obj fs => .ok (fs.map (fun kv => .str kv.1))
  | _ => .error .typeError

/-- The `for` loop of `display_activity`: starting from `displayed_count =
count`, break once `displayed_count >= max_events`, format each event, print
`"• " + formatted_event` and increment the count when the formatted result is
truthy (a non-`None`, non-empty string).  Returns the bullet lines printed,
the final `displayed_count`, and the exception, if one escaped. -/
def displayLoop (max_events : Int) : List Value → Nat → List String × Nat × Option PyErr
  | [], count => ([], count, none)
  | e :: rest, count =>
    if max_events ≤ (count : Int) then ([], count, none)
    else
      match format_event e with
      | .error err => ([], count, some err)
      | .ok none => displayLoop max_events rest count
      | .ok (some s) =>
        if s = "" then displayLoop max_events rest count
        else
          match displayLoop max_events rest (count + 1) with
          | (ls, c, err) => (("• " ++ s) :: ls, c, err)

/-- The `"🔍 Fetching recent activity for ..."` status line. -/
def fetchingLine (username : String) : String :=
  "🔍 Fetching recent activity for \x27" ++ username ++ "\x27..."

/-- The `"📭 No recent activity found ..."` line for an empty feed. -/
def noActivityLine (username : String) : String :=
  "📭 No recent activity found for \x27" ++ username ++ "\x27"

/-- The `"📊 Recent activity ..."` header line (with its embedded blank
lines, exactly the string passed to `print`). -/
def headerLine (username : String) : String :=
  "\n📊 Recent activity for " ++ username ++ ":\n"

/-- The line printed when the loop displayed zero events. -/
def noSupportedLine : String := "No supported event types found in recent activity."

/-- The closing summary line stating how many events were displayed. -/
def summaryLine (displayed_count : Nat) : String :=
  "\n📈 Displaying " ++ toString displayed_count ++ " most recent events."

/-- `GitHubActivityFetcher.display_activity`, resumed after the one network
call: print the fetching line, then either the process has already exited
inside `fetch_activity`, or the feed is falsy (empty) and the no-activity
line is printed, or the header is printed, the loop runs, and the closing
line is chosen by the final `displayed_count`. -/
def display_activity (username : String) (fetched : FetchResult) (max_events : Int) : Console :=
  match fetched with
  | .failed line => ⟨[fetchingLine username], [line], .exited 1⟩
  | .ok events =>
    if pyTruthy events then
      match pyIter events with
      | .error e => ⟨[fetchingLine username, headerLine username], [], .raised e⟩
      | .ok evList =>
        match displayLoop max_events evList 0 with
        | (ls, _, some e) =>
          ⟨[fetchingLine username, headerLine username] ++ ls, [], .raised e⟩
        | (ls, displayed_count, none) =>
          ⟨[fetchingLine username, headerLine username] ++ ls
            ++ [if displayed_count = 0 then noSupportedLine else summaryLine displayed_count],
           [], .normal⟩
    else ⟨[fetchingLine username, noActivityLine username], [], .normal⟩

/-- ASCII whitespace as stripped by `str.strip()` and `int()` (the further
Unicode whitespace Python also strips does not occur in command lines the
claims exercise). -/
def isPySpace (c : Char) : Bool :=
  c = ' ' ∨ c = '\t' ∨ c = '\n' ∨ c = '\r' ∨ c = '\x0b' ∨ c = '\x0c'

/-- `str.strip()`: remove leading and trailing whitespace. -/
def pyStrip (s : String) : String :=
  String.mk (((s.data.dropWhile isPySpace).reverse.dropWhile isPySpace).reverse)

/-- Digit-run grammar of `int()`: digits with single underscores allowed
between digits (`"1_0"` parses, `"_1"`, `"1_"` and `"1__0"` do not). -/
def pyIntDigitsAux (acc : Nat) : List Char → Option Nat
  | [] => some acc
  | '_' :: c :: cs => if c.isDigit then pyIntDigitsAux (acc * 10 + digitVal c) cs else none
  | ['_'] => none
  | c :: cs => if c.isDigit then pyIntDigitsAux (acc * 10 + digitVal c) cs else none

/-- Unsigned digit run of `int()`: at least one digit, then `pyIntDigitsAux`. -/
def pyIntDigits : List Char → Option Nat
  | [] => none
  | c :: cs => if c.isDigit then pyIntDigitsAux (digitVal c) cs else none

/-- `int(s)` on a string: strip whitespace, then an optional single sign and
a digit run; `none` models the `ValueError` branch. -/
def pyInt (s : String) : Option Int :=
  match (pyStrip s).data with
  | '+' :: cs => (pyIntDigits cs).map (fun n => (n : Int))
  | '-' :: cs => (pyIntDigits cs).map (fun n => -(n : Int))
  | cs => (pyIntDigits cs).map (fun n => (n : Int))

/-- The validation message for a bad `max_events` argument, as printed by
`main` with its error glyph. -/
def maxEventsErrMsg : String := "❌ Error: max_events must be a positive integer"

/-- The validation message for an empty username. -/
def emptyUserErrMsg : String := "❌ Error: Username cannot be empty"

/-- The usage text printed by `print_usage` (one `print` call). -/
def usageText : String :=
  "\nGitHub Activity CLI\nUsage: github-activity <username> [max_events]\n\nArguments:\n    username    GitHub username to fetch activity for\n    max_events  Maximum number of events to display (default: 10)\n\nExamples:\n    github-activity kamranahmedse\n    github-activity torvalds 5\n    github-activity microsoft 20\n        "

/-- How `main` dispatches after argument handling: print usage and exit 0,
print a validation error to standard error and exit 1 (before any network
activity), or call `display_activity` with the validated username and
maximum. -/
inductive MainResult where
  | usage
  | validationError (msg : String)
  | run (username : String) (max_events : Int)
  deriving DecidableEq

/-- `main`: with fewer than two arguments or a help flag, print usage and
exit 0; otherwise parse the optional `max_events` (default 10, rejecting
non-integers and values `<= 0`), then reject a whitespace-only username, and
finally run the fetch-and-display pipeline. -/
def pyMain (argv : List String) : MainResult :=
  match argv with
  | [] => .usage
  | [_] => .usage
  | _ :: username :: rest =>
    if username = "-h" ∨ username = "--help" then .usage
    else
      let parsed : Option Int :=
        match rest with
        | [] => some 10
        | a :: _ =>
          match pyInt a with
          | some n => if n ≤ 0 then none else some n
          | none => none
      match parsed with
      | none => .validationError maxEventsErrMsg
      | some max_events =>
        if pyStrip username = "" then .validationError emptyUserErrMsg
        else .run username max_events

/-- The whole process: `main` dispatch, then the fetch-and-display pipeline
against the given HTTP outcome. -/
def runCLI (argv : List String) (o : HttpOutcome) : Console :=
  match pyMain argv with
  | .usage => ⟨[usageText], [], .exited 0⟩
  | .validationError msg => ⟨[], [msg], .exited 1⟩
  | .run username max_events => display_activity username (fetch_activity username o) max_events

/-- Total length of the literal chunks of a template: a lower bound on the
length of any successful substitution, used to show formatted lines are
never empty (so the truthiness test in the display loop never skips a
successfully formatted event). -/
def litLen : List TmplPart → Nat
  | [] => 0
  | .lit l :: rest => l.length + litLen rest
  | .field _ _ :: rest => litLen rest

/-- An event record (a dict) whose `type` value is a string found in the
`EVENT_MESSAGES` table: the notion of a supported event in the spec. -/
def recognized (e : Value) : Bool :=
  match e with
  | .obj fs =>
    match lookupAssoc fs "type" with
    | some (.str t) => (lookupAssoc EVENT_MESSAGES t).isSome
    | _ => false
  | _ => false

/-- The line the display loop would print for an event, when formatting
returns a truthy string: the per-event view of stdout. -/
def supportedLine (e : Value) : Option String :=
  match format_event e with
  | .ok (some s) => if s = "" then none else some s
  | _ => none

/-- All lines the display loop could print for a feed, in feed order. -/
def supportedLines (events : List Value) : List String := events.filterMap supportedLine

theorem ne_empty_of_length_pos {s : String} (h : 0 < s.length) : s ≠ "" := by
  intro hs
  subst hs
  simp at h

theorem substTmpl_litLen_le (fields : List (String × Value)) :
    ∀ (parts : List TmplPart) (s : String), substTmpl fields parts = .ok s → litLen parts ≤ s.length
  | [], s, h => by
    simp only [substTmpl, Except.ok.injEq] at h
    subst h
    simp [litLen]
  | [p], s, h => by
    cases p with
    | lit l =>
      simp only [substTmpl, renderPart, Except.ok.injEq] at h
      subst h
      simp [litLen]
    | field r path => simp [litLen]
  | p :: q :: rest, s, h => by
    rw [substTmpl] at h
    cases ha : renderPart fields p with
    | error e => rw [ha] at h; exact absurd h (by simp)
    | ok a =>
      rw [ha] at h
      cases hb : substTmpl fields (q :: rest) with
      | error e => rw [hb] at h; exact absurd h (by simp)
      | ok b =>
        rw [hb] at h
        simp only [Except.ok.injEq] at h
        subst h
        have ihb := substTmpl_litLen_le fields (q :: rest) b hb
        cases p with
        | lit l =>
          simp only [renderPart, Except.ok.injEq] at ha
          subst ha
          simp only [litLen, String.length_append]
          omega
        | field r path =>
          simp only [litLen, String.length_append]
          omega

theorem lookupAssoc_litLen_pos :
    ∀ (l : List (String × List TmplPart)), (∀ p ∈ l, 0 < litLen p.2) →
      ∀ (t : String) (tmpl : List TmplPart), lookupAssoc l t = some tmpl → 0 < litLen tmpl
  | [], _, t, tmpl, h => by simp [lookupAssoc] at h
  | (k, v) :: rest, hall, t, tmpl, h => by
    rw [lookupAssoc] at h
    by_cases hk : k = t
    · rw [if_pos hk] at h
      cases h
      exact hall (k, v) (List.mem_cons_self _ _)
    · rw [if_neg hk] at h
      exact lookupAssoc_litLen_pos rest (fun p hp => hall p (List.mem_cons_of_mem _ hp)) t tmpl h

theorem EVENT_MESSAGES_litLen_pos : ∀ p ∈ EVENT_MESSAGES, 0 < litLen p.2 := by decide

/-- Formatting an event whose type is not recognized yields `None` whenever it
does not raise. -/
theorem format_event_unrecognized (e : Value) (he : recognized e = false) :
    ∀ o, format_event e = .ok o → o = none := by
  intro o h
  cases e with
  | obj fs =>
    cases ht : lookupAssoc fs "type" with
    | none => simp only [format_event, ht] at h; cases h; rfl
    | some v =>
      cases v with
      | null => simp only [format_event, ht] at h; cases h; rfl
      | bool b => simp only [format_event, ht] at h; cases h; rfl
      | int n => simp only [format_event, ht] at h; cases h; rfl
      | list xs => simp only [format_event, ht] at h; cases h
      | obj fs2 => simp only [format_event, ht] at h; cases h
      | str t =>
        cases htm : lookupAssoc EVENT_MESSAGES t with
        | none => simp only [format_event, ht, htm] at h; cases h; rfl
        | some tmpl => simp [recognized, ht, htm] at he
  | null => simp only [format_event] at h; cases h
  | bool b => simp only [format_event] at h; cases h
  | int n => simp only [format_event] at h; cases h
  | str s => simp only [format_event] at h; cases h
  | list xs => simp only [format_event] at h; cases h

/-- Formatting an event whose type is recognized yields a non-empty string
whenever it does not raise: the template always contributes a literal chunk,
the fallback line always contains `" in "`, and the timestamp prefix always
contains `" - "`. -/
theorem format_event_recognized (e : Value) (he : recognized e = true) :
    ∀ o, format_event e = .ok o → ∃ s, o = some s ∧ s ≠ "" := by
  intro o h
  cases e with
  | obj fs =>
    cases ht : lookupAssoc fs "type" with
    | none => simp [recognized, ht] at he
    | some v =>
      cases v with
      | null => simp [recognized, ht] at he
      | bool b => simp [recognized, ht] at he
      | int n => simp [recognized, ht] at he
      | list xs => simp [recognized, ht] at he
      | obj fs2 => simp [recognized, ht] at he
      | str t =>
        cases htm : lookupAssoc EVENT_MESSAGES t with
        | none => simp [recognized, ht, htm] at he
        | some tmpl =>
          simp only [format_event, ht, htm] at h
          have hpos : 0 < litLen tmpl :=
            lookupAssoc_litLen_pos EVENT_MESSAGES EVENT_MESSAGES_litLen_pos t tmpl htm
          cases hsub : substTmpl fs tmpl with
          | ok message =>
            simp only [formatKnown, hsub] at h
            have hmsg : message ≠ "" := by
              have := substTmpl_litLen_le fs tmpl message hsub
              exact ne_empty_of_length_pos (by omega)
            cases hca : lookupAssoc fs "created_at" with
            | none =>
              simp only [hca] at h
              cases h
              exact ⟨message, rfl, hmsg⟩
            | some ca =>
              simp only [hca] at h
              by_cases htr : pyTruthy ca
              · rw [if_pos htr] at h
                cases ca with
                | str c =>
                  cases h
                  refine ⟨_, rfl, ne_empty_of_length_pos ?_⟩
                  have hm : 0 < message.length := by
                    have := substTmpl_litLen_le fs tmpl message hsub
                    omega
                  simp only [String.length_append]
                  omega
                | null => cases h
                | bool b => cases h
                | int n => cases h
                | list xs => cases h
                | obj fs2 => cases h
              · rw [if_neg htr] at h
                cases h
                exact ⟨message, rfl, hmsg⟩
          | error err =>
            simp only [formatKnown, hsub] at h
            cases err with
            | keyError =>
              cases hr : lookupAssoc fs "repo" with
              | none =>
                simp only [formatFallback, hr] at h
                cases h
                refine ⟨_, rfl, ne_empty_of_length_pos ?_⟩
                simp only [String.length_append]
                have h11 : (" in unknown").length = 11 := rfl
                omega
              | some rv =>
                cases rv with
                | obj rf =>
                  simp only [formatFallback, hr] at h
                  cases h
                  refine ⟨_, rfl, ne_empty_of_length_pos ?_⟩
                  simp only [String.length_append]
                  have h4 : (" in ").length = 4 := rfl
                  omega
                | null => simp only [formatFallback, hr] at h; cases h
                | bool b => simp only [formatFallback, hr] at h; cases h
                | int n => simp only [formatFallback, hr] at h; cases h
                | str s2 => simp only [formatFallback, hr] at h; cases h
                | list xs => simp only [formatFallback, hr] at h; cases h
            | typeError => cases h
            | attributeError => cases h
  | null => simp [recognized] at he
  | bool b => simp [recognized] at he
  | int n => simp [recognized] at he
  | str s => simp [recognized] at he
  | list xs => simp [recognized] at he

/-- Characterization of the display loop on feeds where formatting never
raises: the printed lines are the bullet-prefixed supported lines truncated
to the remaining budget, the final count advances by the number printed, and
no exception escapes. -/
theorem displayLoop_eq (m : Int) (events : List Value) :
    ∀ (count : Nat), (∀ e ∈ events, ∃ o, format_event e = .ok o) →
      displayLoop m events count =
        (((supportedLines events).take (m - count).toNat).map (fun s => "• " ++ s),
         count + min (m - count).toNat (supportedLines events).length,
         none) := by
  induction events with
  | nil => intro count h; simp [displayLoop, supportedLines]
  | cons e rest ih =>
    intro count h
    have hrest : ∀ x ∈ rest, ∃ o, format_event x = .ok o :=
      fun x hx => h x (List.mem_cons_of_mem _ hx)
    by_cases hm : m ≤ (count : Int)
    · have h0 : (m - (count : Int)).toNat = 0 := by omega
      simp only [displayLoop, if_pos hm, h0]
      simp
    · have hm' : (count : Int) < m := by omega
      obtain ⟨o, ho⟩ := h e (List.mem_cons_self e rest)
      cases o with
      | none =>
        have hsl : supportedLine e = none := by simp [supportedLine, ho]
        have hstep : displayLoop m (e :: rest) count = displayLoop m rest count := by
          simp only [displayLoop, ho]
          rw [if_neg hm]
        rw [hstep, ih count hrest]
        simp [supportedLines, List.filterMap_cons, hsl]
      | some s =>
        by_cases hse : s = ""
        · subst hse
          have hsl : supportedLine e = none := by simp [supportedLine, ho]
          have hstep : displayLoop m (e :: rest) count = displayLoop m rest count := by
            simp only [displayLoop, ho]
            rw [if_neg hm]
            simp
          rw [hstep, ih count hrest]
          simp [supportedLines, List.filterMap_cons, hsl]
        · have hsl : supportedLine e = some s := by simp [supportedLine, ho, hse]
          have hr := ih (count + 1) hrest
          have hstep : displayLoop m (e :: rest) count =
              (("• " ++ s) ::
                 ((supportedLines rest).take (m - ((count : Int) + 1)).toNat).map (fun x => "• " ++ x),
               (count + 1) + min (m - ((count : Int) + 1)).toNat (supportedLines rest).length,
               none) := by
            simp only [displayLoop, ho]
            rw [if_neg hm, if_neg hse]
            push_cast at hr
            rw [hr]
          rw [hstep]
          have hk : (m - (count : Int)).toNat = (m - ((count : Int) + 1)).toNat + 1 := by omega
          have hsls : supportedLines (e :: rest) = s :: supportedLines rest := by
            simp [supportedLines, List.filterMap_cons, hsl]
          rw [hsls, hk]
          simp only [List.take_succ_cons, List.map_cons, Prod.mk.injEq, List.length_cons,
            true_and, and_true]
          omega

/-- The display loop never prints more lines than the remaining budget
allows, and its final count is the starting count plus the number of lines it
printed — whether or not an exception cut the loop short. -/
theorem displayLoop_bound (m : Int) (events : List Value) :
    ∀ (count : Nat),
      ((displayLoop m events count).1).length ≤ (m - count).toNat ∧
      (displayLoop m events count).2.1 = count + ((displayLoop m events count).1).length := by
  induction events with
  | nil => intro count; simp [displayLoop]
  | cons e rest ih =>
    intro count
    by_cases hm : m ≤ (count : Int)
    · simp only [displayLoop, if_pos hm]
      simp
    · have hm' : (count : Int) < m := by omega
      cases hfe : format_event e with
      | error err =>
        simp only [displayLoop, hfe]
        rw [if_neg hm]
        simp
      | ok o =>
        cases o with
        | none =>
          have hstep : displayLoop m (e :: rest) count = displayLoop m rest count := by
            simp only [displayLoop, hfe]
            rw [if_neg hm]
          rw [hstep]
          obtain ⟨h1, h2⟩ := ih count
          exact ⟨h1, h2⟩
        | some s =>
          by_cases hse : s = ""
          · have hstep : displayLoop m (e :: rest) count = displayLoop m rest count := by
              simp only [displayLoop, hfe]
              rw [if_neg hm, if_pos hse]
            rw [hstep]
            exact ih count
          · obtain ⟨h1, h2⟩ := ih (count + 1)
            rcases hrt : displayLoop m rest (count + 1) with ⟨ls, c, err⟩
            have hstep : displayLoop m (e :: rest) count = (("• " ++ s) :: ls, c, err) := by
              simp only [displayLoop, hfe]
              rw [if_neg hm, if_neg hse, hrt]
            rw [hrt] at h1 h2
            rw [hstep]
            constructor
            · show (("• " ++ s) :: ls).length ≤ (m - (count : Int)).toNat
              simp only [List.length_cons]
              simp only at h1
              omega
            · show c = count + (("• " ++ s) :: ls).length
              simp only [List.length_cons]
              simp only at h2
              omega

/-- On a feed where formatting never raises, the number of lines the loop can
print equals the number of events whose type is recognized: recognized events
always format to a truthy line (`format_event_recognized`) and unrecognized
ones never do. -/
theorem supportedLines_length (events : List Value)
    (h : ∀ e ∈ events, ∃ o, format_event e = .ok o) :
    (supportedLines events).length = (events.filter recognized).length := by
  induction events with
  | nil => simp [supportedLines]
  | cons e rest ih =>
    have hrest : ∀ x ∈ rest, ∃ o, format_event x = .ok o :=
      fun x hx => h x (List.mem_cons_of_mem _ hx)
    obtain ⟨o, ho⟩ := h e (List.mem_cons_self e rest)
    by_cases hrec : recognized e = true
    · obtain ⟨s, hs, hne⟩ := format_event_recognized e hrec o ho
      subst hs
      have hsl : supportedLine e = some s := by simp [supportedLine, ho, hne]
      simp [supportedLines, List.filterMap_cons, hsl, List.filter_cons, hrec]
      exact ih hrest
    · have hnone := format_event_unrecognized e (by simpa using hrec) o ho
      subst hnone
      have hsl : supportedLine e = none := by simp [supportedLine, ho]
      simp [supportedLines, List.filterMap_cons, hsl, List.filter_cons, hrec]
      exact ih hrest

/-- Claim C3 (confirmed): for a fetch whose HTTP response status is 404 the
program prints the user-not-found message, for 403 the rate-limit message,
and for any other status raised as an `HTTPError` the API-error message
carrying the status code and the server reason phrase; in each case the
message goes to the error stream and the process exits with status 1
(non-zero). -/
theorem C3_http_error_classification (username reason : String) (m : Int) (code : Nat) :
    (display_activity username (fetch_activity username (.httpError 404 reason)) m =
       ⟨[fetchingLine username],
        ["❌ Error: " ++ ("User \x27" ++ username ++ "\x27 not found")], .exited 1⟩) ∧
    (display_activity username (fetch_activity username (.httpError 403 reason)) m =
       ⟨[fetchingLine username],
        ["❌ Error: API rate limit exceeded. Please try again later."], .exited 1⟩) ∧
    (code ≠ 404 → code ≠ 403 →
      display_activity username (fetch_activity username (.httpError code reason)) m =
       ⟨[fetchingLine username],
        ["❌ Error: " ++ ("GitHub API error: " ++ toString code ++ " - " ++ reason)],
        .exited 1⟩) := by
  refine ⟨rfl, rfl, ?_⟩
  intro h404 h403
  have hf : fetch_activity username (.httpError code reason) =
      .failed (_print_error ("GitHub API error: " ++ toString code ++ " - " ++ reason)) := by
    simp only [fetch_activity]
    rw [if_neg h404, if_neg h403]
  simp only [display_activity, hf]
  rfl

/-- Witness for C3 at the concrete status 500. -/
theorem C3_witness :
    display_activity "bob" (fetch_activity "bob" (.httpError 500 "Internal Server Error")) 10 =
      ⟨[fetchingLine "bob"],
       ["❌ Error: " ++ ("GitHub API error: " ++ toString 500 ++ " - " ++ "Internal Server Error")],
       .exited 1⟩ :=
  (C3_http_error_classification "bob" "Internal Server Error" 10 500).2.2
    (by decide) (by decide)

/-- Claim C4 (confirmed): an event record whose type tag (a string, per the
data model) is not one of the eleven known types is formatted to `None`, and
the display loop prints nothing for it, does not count it, and does not let
it consume the `max_events` budget: the loop continues on the remaining
events with the same count. -/
theorem C4_unsupported_skipped (fs : List (String × Value)) (t : String) (m : Int)
    (count : Nat) (rest : List Value)
    (ht : lookupAssoc fs "type" = some (.str t) ∨ lookupAssoc fs "type" = none)
    (htm : lookupAssoc EVENT_MESSAGES t = none) :
    format_event (.obj fs) = .ok none ∧
    displayLoop m (Value.obj fs :: rest) count =
      (if m ≤ (count : Int) then ([], count, none) else displayLoop m rest count) := by
  have h1 : format_event (.obj fs) = .ok none := by
    rcases ht with ht | ht
    · simp only [format_event, ht, htm]
    · simp only [format_event, ht]
  refine ⟨h1, ?_⟩
  simp only [displayLoop, h1]

/-- Witness for C4 at a concrete `GollumEvent` record. -/
theorem C4_witness :
    format_event (Value.obj [("type", Value.str "GollumEvent")]) = .ok none ∧
    displayLoop 5 (Value.obj [("type", Value.str "GollumEvent")] :: []) 0 =
      (if (5 : Int) ≤ ((0 : Nat) : Int) then ([], 0, none) else displayLoop 5 [] 0) :=
  C4_unsupported_skipped [("type", Value.str "GollumEvent")] "GollumEvent" 5 0 []
    (Or.inl rfl) rfl

/-- Claim C5 (confirmed): a string that parses as an ISO-8601 timestamp (with
a trailing `Z` accepted via its replacement by `+00:00`) is reformatted as
zero-padded `YYYY-MM-DD HH:MM`; a string that does not parse is returned
unchanged; the function is total on strings.  In particular
`2024-01-15T10:30:00Z` yields `2024-01-15 10:30` and `not-a-date` is
unchanged. -/
theorem C5_timestamp_format (s : String) :
    (∀ dt, fromisoformat (replaceZ s) = some dt →
        _format_timestamp s = strftime_Y_m_d_H_M dt) ∧
    (fromisoformat (replaceZ s) = none → _format_timestamp s = s) ∧
    _format_timestamp "2024-01-15T10:30:00Z" = "2024-01-15 10:30" ∧
    _format_timestamp "not-a-date" = "not-a-date" := by
  refine ⟨?_, ?_, rfl, rfl⟩
  · intro dt h
    simp only [_format_timestamp, h]
  · intro h
    simp only [_format_timestamp, h]

/-- Witness for C5 at the parseable example timestamp. -/
theorem C5_witness :
    _format_timestamp "2024-01-15T10:30:00Z" =
      strftime_Y_m_d_H_M ⟨2024, 1, 15, 10, 30, 0, 0, some 0⟩ :=
  (C5_timestamp_format "2024-01-15T10:30:00Z").1 ⟨2024, 1, 15, 10, 30, 0, 0, some 0⟩ rfl

/-- Claim C9 (confirmed): when the fetch returns an empty event sequence the
display controller prints the no-recent-activity line and returns normally,
and the process exit status is 0 — a normal outcome, unlike a fetch failure,
which would have ended the process with status 1 before this point. -/
theorem C9_empty_feed_normal (username : String) (m : Int) :
    display_activity username (fetch_activity username (.success (.list []))) m =
      ⟨[fetchingLine username, noActivityLine username], [], .normal⟩ ∧
    exitCode (display_activity username (fetch_activity username (.success (.list []))) m) = 0 :=
  ⟨rfl, rfl⟩

/-- Claim C6 (confirmed): for each of the eleven known event types, an event
record carrying every field referenced by that type with string values (and
no `created_at`, matching the claim modulo the optional timestamp prefix) is
formatted to exactly the literal template of section 4.2 with the field
values substituted; and no type outside the eleven-entry table is rendered. -/
theorem C6_templates_exact :
    (∀ commits repoName : String,
      format_event (.obj [("type", .str "PushEvent"),
          ("payload", .obj [("commits", .str commits)]),
          ("repo", .obj [("name", .str repoName)])]) =
        .ok (some ("Pushed " ++ (commits ++ (" commits to " ++ repoName))))) ∧
    (∀ action repoName : String,
      format_event (.obj [("type", .str "IssuesEvent"),
          ("payload", .obj [("action", .str action)]),
          ("repo", .obj [("name", .str repoName)])]) =
        .ok (some (action ++ (" an issue in " ++ repoName)))) ∧
    (∀ repoName : String,
      format_event (.obj [("type", .str "IssueCommentEvent"),
          ("repo", .obj [("name", .str repoName)])]) =
        .ok (some ("Commented on an issue in " ++ repoName))) ∧
    (∀ repoName : String,
      format_event (.obj [("type", .str "WatchEvent"),
          ("repo", .obj [("name", .str repoName)])]) =
        .ok (some ("Starred " ++ repoName))) ∧
    (∀ repoName : String,
      format_event (.obj [("type", .str "ForkEvent"),
          ("repo", .obj [("name", .str repoName)])]) =
        .ok (some ("Forked " ++ repoName))) ∧
    (∀ refType repoName : String,
      format_event (.obj [("type", .str "CreateEvent"),
          ("payload", .obj [("ref_type", .str refType)]),
          ("repo", .obj [("name", .str repoName)])]) =
        .ok (some ("Created " ++ (refType ++ (" in " ++ repoName))))) ∧
    (∀ refType repoName : String,
      format_event (.obj [("type", .str "DeleteEvent"),
          ("payload", .obj [("ref_type", .str refType)]),
          ("repo", .obj [("name", .str repoName)])]) =
        .ok (some ("Deleted " ++ (refType ++ (" in " ++ repoName))))) ∧
    (∀ action repoName : String,
      format_event (.obj [("type", .str "PullRequestEvent"),
          ("payload", .obj [("action", .str action)]),
          ("repo", .obj [("name", .str repoName)])]) =
        .ok (some (action ++ (" a pull request in " ++ repoName)))) ∧
    (∀ tagName repoName : String,
      format_event (.obj [("type", .str "ReleaseEvent"),
          ("payload", .obj [("release", .obj [("tag_name", .str tagName)])]),
          ("repo", .obj [("name", .str repoName)])]) =
        .ok (some ("Released " ++ (tagName ++ (" in " ++ repoName))))) ∧
    (∀ repoName : String,
      format_event (.obj [("type", .str "PublicEvent"),
          ("repo", .obj [("name", .str repoName)])]) =
        .ok (some ("Made " ++ (repoName ++ " public")))) ∧
    (∀ action repoName : String,
      format_event (.obj [("type", .str "MemberEvent"),
          ("payload", .obj [("action", .str action)]),
          ("repo", .obj [("name", .str repoName)])]) =
        .ok (some (action ++ (" a collaborator to " ++ repoName)))) ∧
    (∀ (fs : List (String × Value)) (t : String),
      lookupAssoc fs "type" = some (.str t) → lookupAssoc EVENT_MESSAGES t = none →
      format_event (.obj fs) = .ok none) :=
  ⟨fun _ _ => rfl, fun _ _ => rfl, fun _ => rfl, fun _ => rfl, fun _ => rfl,
   fun _ _ => rfl, fun _ _ => rfl, fun _ _ => rfl, fun _ _ => rfl, fun _ => rfl,
   fun _ _ => rfl,
   fun fs t h1 h2 => by simp only [format_event, h1, h2]⟩

/-- Witness for C6: a concrete unknown type is not rendered (the only part of
C6 with hypotheses). -/
theorem C6_witness :
    format_event (Value.obj [("type", Value.str "GollumEvent"),
        ("repo", Value.obj [("name", Value.str "octo/repo")])]) = .ok none :=
  C6_templates_exact.2.2.2.2.2.2.2.2.2.2.2
    [("type", Value.str "GollumEvent"), ("repo", Value.obj [("name", Value.str "octo/repo")])]
    "GollumEvent" rfl rfl

/-- Counterexample to claim C2 as stated: a `PushEvent` record whose
`payload` field is present but of the wrong shape (an integer, so the
template subscript `payload[commits]` raises `TypeError`, which the code does
not catch) makes `format_event` fail instead of returning the fallback line
`PushEvent in demo`. -/
theorem C2_counterexample :
    format_event (Value.obj [("type", Value.str "PushEvent"),
        ("repo", Value.obj [("name", Value.str "demo")]),
        ("payload", Value.int 42)]) = .error .typeError ∧
    format_event (Value.obj [("type", Value.str "PushEvent"),
        ("repo", Value.obj [("name", Value.str "demo")]),
        ("payload", Value.int 42)]) ≠ .ok (some "PushEvent in demo") :=
  ⟨rfl, fun h => Except.noConfusion h⟩

/-- Claim C2 (corrected): for an event of a known type whose template
substitution raises `KeyError` (a referenced mapping lacks the key — the
"missing field" case), `format_event` does not fail: it returns the fallback
line `<type> in <repo.name>`, or `<type> in unknown` when `repo` is absent or
`repo.name` is absent.  The original claim also covered fields "of the wrong
shape", but a wrong-shaped field raises `TypeError` (or `AttributeError`),
which is not caught, so `format_event` does fail there
(`C2_counterexample`); the fallback is likewise only reached when `repo`
itself is absent or a mapping. -/
theorem C2_missing_field_fallback (fs : List (String × Value)) (t : String)
    (tmpl : List TmplPart)
    (ht : lookupAssoc fs "type" = some (.str t))
    (htm : lookupAssoc EVENT_MESSAGES t = some tmpl)
    (hsub : substTmpl fs tmpl = .error .keyError) :
    (lookupAssoc fs "repo" = none →
      format_event (.obj fs) = .ok (some (t ++ " in unknown"))) ∧
    (∀ rf v, lookupAssoc fs "repo" = some (.obj rf) → lookupAssoc rf "name" = some v →
      format_event (.obj fs) = .ok (some (t ++ " in " ++ pyStr v))) ∧
    (∀ rf, lookupAssoc fs "repo" = some (.obj rf) → lookupAssoc rf "name" = none →
      format_event (.obj fs) = .ok (some (t ++ " in " ++ "unknown"))) := by
  refine ⟨?_, ?_, ?_⟩
  · intro hr
    simp only [format_event, ht, htm, formatKnown, hsub, formatFallback, hr]
  · intro rf v hr hn
    simp only [format_event, ht, htm, formatKnown, hsub, formatFallback, hr, hn]
  · intro rf hr hn
    simp only [format_event, ht, htm, formatKnown, hsub, formatFallback, hr, hn]

/-- Witness for C2 at a concrete `PushEvent` record missing its `payload`
(the substitution raises `KeyError`), with `repo.name` present. -/
theorem C2_witness :
    format_event (Value.obj [("type", Value.str "PushEvent"),
        ("repo", Value.obj [("name", Value.str "demo")])]) =
      .ok (some ("PushEvent" ++ " in " ++ pyStr (Value.str "demo"))) :=
  (C2_missing_field_fallback [("type", Value.str "PushEvent"),
        ("repo", Value.obj [("name", Value.str "demo")])]
      "PushEvent"
      [.lit "Pushed ", .field "payload" ["commits"], .lit " commits to ",
       .field "repo" ["name"]]
      rfl rfl rfl).2.1
    [("name", Value.str "demo")] (Value.str "demo") rfl rfl

/-- Counterexample to claim C7 as stated: a `WatchEvent` record that carries
a `created_at` value — the empty string — is emitted without the timestamp
prefix, because the code tests the truthiness of `created_at`, not its
presence. -/
theorem C7_counterexample :
    format_event (Value.obj [("type", Value.str "WatchEvent"),
        ("repo", Value.obj [("name", Value.str "r")]),
        ("created_at", Value.str "")]) = .ok (some "Starred r") ∧
    ("Starred r" : String) ≠ _format_timestamp "" ++ " - " ++ "Starred r" :=
  ⟨rfl, by decide⟩

/-- Claim C7 (corrected): for an event of a recognized type whose template
substitution succeeds, the line is prefixed with the formatted timestamp and
`" - "` exactly when the record carries a truthy `created_at` string (a
non-empty one); when `created_at` is absent — and also when it is present
but falsy, such as the empty string or `null`, which the original claim did
not allow — the line is emitted unprefixed. -/
theorem C7_timestamp_prefixing (fs : List (String × Value)) (t : String)
    (tmpl : List TmplPart) (msg : String)
    (ht : lookupAssoc fs "type" = some (.str t))
    (htm : lookupAssoc EVENT_MESSAGES t = some tmpl)
    (hsub : substTmpl fs tmpl = .ok msg) :
    (∀ c, lookupAssoc fs "created_at" = some (.str c) → c ≠ "" →
      format_event (.obj fs) = .ok (some (_format_timestamp c ++ " - " ++ msg))) ∧
    (lookupAssoc fs "created_at" = none → format_event (.obj fs) = .ok (some msg)) ∧
    (lookupAssoc fs "created_at" = some (.str "") →
      format_event (.obj fs) = .ok (some msg)) ∧
    (lookupAssoc fs "created_at" = some .null →
      format_event (.obj fs) = .ok (some msg)) := by
  refine ⟨?_, ?_, ?_, ?_⟩
  · intro c hca hc
    simp only [format_event, ht, htm, formatKnown, hsub, hca, pyTruthy, hc, if_false,
      if_true]
  · intro hca
    simp only [format_event, ht, htm, formatKnown, hsub, hca]
  · intro hca
    simp only [format_event, ht, htm, formatKnown, hsub, hca, pyTruthy]
    simp
  · intro hca
    simp only [format_event, ht, htm, formatKnown, hsub, hca, pyTruthy]
    simp

/-- Witness for C7 at a concrete `WatchEvent` with a non-empty
`created_at`. -/
theorem C7_witness :
    format_event (Value.obj [("type", Value.str "WatchEvent"),
        ("repo", Value.obj [("name", Value.str "r")]),
        ("created_at", Value.str "2024-01-15T10:30:00Z")]) =
      .ok (some (_format_timestamp "2024-01-15T10:30:00Z" ++ " - " ++ "Starred r")) :=
  (C7_timestamp_prefixing [("type", Value.str "WatchEvent"),
        ("repo", Value.obj [("name", Value.str "r")]),
        ("created_at", Value.str "2024-01-15T10:30:00Z")]
      "WatchEvent" [.lit "Starred ", .field "repo" ["name"]] "Starred r"
      rfl rfl rfl).1
    "2024-01-15T10:30:00Z" rfl (by decide)

/-- Claim C8 (confirmed): a `max_events` argument that is not an integer or
not positive is rejected with the one validation message on the error stream
and exit status 1, and the run is independent of any HTTP outcome — no
network activity happens; an empty or whitespace-only username is likewise
rejected with exit status 1 before any network activity.  The concrete
inputs `0`, `-3` and `abc` of the claim fall under the same message. -/
theorem C8_cli_validation (prog username a : String) (rest : List String)
    (hu : ¬(username = "-h" ∨ username = "--help")) :
    ((pyInt a = none ∨ ∃ n, pyInt a = some n ∧ n ≤ 0) →
      pyMain (prog :: username :: a :: rest) = .validationError maxEventsErrMsg ∧
      ∀ o, runCLI (prog :: username :: a :: rest) o = ⟨[], [maxEventsErrMsg], .exited 1⟩) ∧
    (pyStrip username = "" →
      pyMain [prog, username] = .validationError emptyUserErrMsg ∧
      ∀ o, runCLI [prog, username] o = ⟨[], [emptyUserErrMsg], .exited 1⟩) ∧
    pyInt "0" = some 0 ∧ pyInt "-3" = some (-3) ∧ pyInt "abc" = none := by
  refine ⟨?_, ?_, rfl, rfl, rfl⟩
  · intro h
    have hmain : pyMain (prog :: username :: a :: rest) = .validationError maxEventsErrMsg := by
      simp only [pyMain]
      rw [if_neg hu]
      rcases h with hnone | ⟨n, hn, hle⟩
      · simp only [hnone]
      · simp only [hn, if_pos hle]
    exact ⟨hmain, fun o => by simp only [runCLI, hmain]⟩
  · intro hs
    have hmain : pyMain [prog, username] = .validationError emptyUserErrMsg := by
      simp only [pyMain]
      rw [if_neg hu, if_pos hs]
    exact ⟨hmain, fun o => by simp only [runCLI, hmain]⟩

/-- Witness for C8 at the concrete invocation `github-activity octocat 0`. -/
theorem C8_witness :
    pyMain ["github-activity", "octocat", "0"] = .validationError maxEventsErrMsg ∧
    ∀ o, runCLI ["github-activity", "octocat", "0"] o = ⟨[], [maxEventsErrMsg], .exited 1⟩ :=
  (C8_cli_validation "github-activity" "octocat" "0" [] (by decide)).1
    (Or.inr ⟨0, rfl, by decide⟩)

/-- Claim C10 (confirmed): an invocation that supplies a username and omits
`max_events` runs the display controller with a maximum of 10 — a default
nowhere stated in the spec — and therefore at most 10 event lines (and at
most a final count of 10) can ever be produced by the loop, whatever the
feed contains. -/
theorem C10_default_max_events (prog username : String)
    (hu : ¬(username = "-h" ∨ username = "--help"))
    (hne : pyStrip username ≠ "") :
    pyMain [prog, username] = .run username 10 ∧
    (∀ o, runCLI [prog, username] o =
      display_activity username (fetch_activity username o) 10) ∧
    (∀ events : List Value,
      ((displayLoop 10 events 0).1).length ≤ 10 ∧ (displayLoop 10 events 0).2.1 ≤ 10) := by
  have hmain : pyMain [prog, username] = .run username 10 := by
    simp only [pyMain]
    rw [if_neg hu, if_neg hne]
  refine ⟨hmain, fun o => by simp only [runCLI, hmain], ?_⟩
  intro events
  obtain ⟨h1, h2⟩ := displayLoop_bound 10 events 0
  have h10 : ((10 : Int) - ((0 : Nat) : Int)).toNat = 10 := by omega
  rw [h10] at h1
  exact ⟨h1, by omega⟩

/-- Witness for C10 at the concrete invocation `github-activity octocat`. -/
theorem C10_witness :
    pyMain ["github-activity", "octocat"] = .run "octocat" 10 ∧
    (∀ o, runCLI ["github-activity", "octocat"] o =
      display_activity "octocat" (fetch_activity "octocat" o) 10) ∧
    (∀ events : List Value,
      ((displayLoop 10 events 0).1).length ≤ 10 ∧ (displayLoop 10 events 0).2.1 ≤ 10) :=
  C10_default_max_events "github-activity" "octocat" (by decide) (by decide)

/-- Counterexample to claim C1 as stated: a non-empty feed with positive
`max_events` whose single event has a recognized type (`IssuesEvent`, so
k = 1 and min(max_events, k) = 1) but a wrong-shaped `payload`, so the first
supported event line is never printed and no summary or no-supported line is
emitted: the loop raises `TypeError` instead. -/
theorem C1_counterexample :
    recognized (Value.obj [("type", Value.str "IssuesEvent"),
        ("payload", Value.list []), ("repo", Value.obj [("name", Value.str "r")])]) = true ∧
    display_activity "alice"
        (.ok (.list [Value.obj [("type", Value.str "IssuesEvent"),
          ("payload", Value.list []), ("repo", Value.obj [("name", Value.str "r")])]]))
        5 =
      ⟨[fetchingLine "alice", headerLine "alice"], [], .raised .typeError⟩ :=
  ⟨rfl, rfl⟩

/-- Claim C1 (corrected): for every non-empty feed and positive `max_events`,
provided formatting raises no exception on any event of the feed (wrong-shaped
fields raise and abort the run, see `C1_counterexample`), `display_activity`
prints the header, then exactly the first `min(max_events, k)` supported
event lines in feed order — where k, the length of `supportedLines`, equals
the number of events whose type is recognized — and finally the
no-supported-event-types line when zero events were displayed, or the
summary naming the displayed count otherwise. -/
theorem C1_display_controller (username : String) (events : List Value) (max_events : Int)
    (hne : events ≠ []) (hpos : 0 < max_events)
    (hok : ∀ e ∈ events, ∃ o, format_event e = .ok o) :
    (supportedLines events).length = (events.filter recognized).length ∧
    display_activity username (.ok (.list events)) max_events =
      ⟨[fetchingLine username, headerLine username]
         ++ ((supportedLines events).take max_events.toNat).map (fun s => "• " ++ s)
         ++ [if min max_events.toNat (supportedLines events).length = 0
             then noSupportedLine
             else summaryLine (min max_events.toNat (supportedLines events).length)],
       [], .normal⟩ := by
  refine ⟨supportedLines_length events hok, ?_⟩
  have htr : pyTruthy (.list events) = true := by
    cases events with
    | nil => exact absurd rfl hne
    | cons e rest => rfl
  have hloop := displayLoop_eq max_events events 0 hok
  have h0 : (max_events - ((0 : Nat) : Int)).toNat = max_events.toNat := by omega
  rw [h0] at hloop
  simp only [zero_add] at hloop
  simp only [display_activity, htr, if_true, pyIter, hloop]

/-- Concrete two-event feed used by the witness of C1. -/
def sampleWatch : Value :=
  .obj [("type", .str "WatchEvent"), ("repo", .obj [("name", .str "octo/repo")])]

/-- Second concrete event of the C1 witness feed. -/
def sampleFork : Value :=
  .obj [("type", .str "ForkEvent"), ("repo", .obj [("name", .str "octo/repo")])]

/-- Witness for C1 at a concrete two-event feed with `max_events = 1`. -/
theorem C1_witness :
    (supportedLines [sampleWatch, sampleFork]).length =
      (([sampleWatch, sampleFork] : List Value).filter recognized).length ∧
    display_activity "octocat" (.ok (.list [sampleWatch, sampleFork])) 1 =
      ⟨[fetchingLine "octocat", headerLine "octocat"]
         ++ ((supportedLines [sampleWatch, sampleFork]).take (1 : Int).toNat).map
              (fun s => "• " ++ s)
         ++ [if min (1 : Int).toNat (supportedLines [sampleWatch, sampleFork]).length = 0
             then noSupportedLine
             else summaryLine (min (1 : Int).toNat
                    (supportedLines [sampleWatch, sampleFork]).length)],
       [], .normal⟩ :=
  C1_display_controller "octocat" [sampleWatch, sampleFork] 1 (by simp) (by decide)
    (by
      intro e he
      simp only [List.mem_cons, List.not_mem_nil, or_false] at he
      rcases he with h | h
      · subst h; exact ⟨_, rfl⟩
      · subst h; exact ⟨_, rfl⟩)

end GithubActivity
